import Mathlib

/-!
# Verification of the langgraph_multiagent orchestration core

Shallow embedding of the hierarchical supervisor/worker orchestration demo:
the document tools (`src/src/tools/document.py`), the chain adapters and node
helpers (`src/src/nodes/common.py`), the supervisor router
(`src/src/agents/base.py`), the state merge rule declared in
`src/src/states/types.py`, and the three star-topology graphs
(`src/src/graphs/research.py`, `src/src/graphs/authoring.py`,
`src/src/graphs/supervisor.py`).

Files are modelled as their line lists (as returned by Python `readlines`,
each line keeping its trailing newline character); a tool's effect on the
file is the second component of its result. The language-model backend is
an external oracle, passed as a function argument.
-/

namespace LangGraphMA

/-! ## Document tools (src/src/tools/document.py) -/

/-- Total order on insert entries used by Python `sorted(inserts.items())`:
ascending line number. Dictionary keys are distinct, so comparing the keys
alone agrees with Python tuple comparison. -/
def keyLE (p q : Nat × String) : Prop := p.1 ≤ q.1

instance : DecidableRel keyLE := fun p q => Nat.decLe p.1 q.1

instance : IsTotal (Nat × String) keyLE := ⟨fun a b => Nat.le_total a.1 b.1⟩

instance : IsTrans (Nat × String) keyLE := ⟨fun _ _ _ h1 h2 => Nat.le_trans h1 h2⟩

/-- Strict version of `keyLE`, used to show that sorting is unambiguous on
distinct keys. -/
def keyLT (p q : Nat × String) : Prop := p.1 < q.1

instance : IsAntisymm (Nat × String) keyLT :=
  ⟨fun _ _ h1 h2 => absurd (Nat.lt_trans h1 h2) (Nat.lt_irrefl _)⟩

/-- `sorted(inserts.items())` from `edit_document`: the insert entries in
ascending line-number order. -/
def sortInserts (l : List (Nat × String)) : List (Nat × String) :=
  List.insertionSort keyLE l

/-- The insertion loop of `edit_document`: for each `(line_number, text)` in
sorted order, if `1 <= line_number <= len(lines) + 1` then
`lines.insert(line_number - 1, text + "\n")`, else return the error string
(Python early `return`, skipping the file write). -/
def applyInserts : List (Nat × String) → List String → Except String (List String)
  | [], lines => Except.ok lines
  | (line_number, text) :: rest, lines =>
    if 1 ≤ line_number ∧ line_number ≤ lines.length + 1 then
      applyInserts rest (lines.insertIdx (line_number - 1) (text ++ "\n"))
    else
      Except.error ("Error: Line number " ++ toString line_number ++ " is out of range.")

/-- `edit_document(file_name, inserts)`. The result is the returned message
paired with the file content after the call: on success the mutated line
list is written back (`file.writelines(lines)`); on an out-of-range insert
the function returns before the write, so the file keeps its old content. -/
def edit_document (file_name : String) (file : List String)
    (inserts : List (Nat × String)) : String × List String :=
  match applyInserts (sortInserts inserts) file with
  | Except.ok lines => ("Document edited and saved to " ++ file_name, lines)
  | Except.error msg => (msg, file)

/-- Python index normalisation for `list[i:j]` slicing: a negative index
counts from the end (clamped at 0), a non-negative one is clamped at the
length. -/
def pyIndex (len : Nat) (i : Int) : Nat :=
  if i < 0 then ((len : Int) + i).toNat else min i.toNat len

/-- Python `l[start:stop]` with optional bounds. -/
def pySlice {α : Type} (l : List α) (start stop : Option Int) : List α :=
  let i := match start with
    | none => 0
    | some s => pyIndex l.length s
  let j := match stop with
    | none => l.length
    | some e => pyIndex l.length e
  (l.take j).drop i

/-- `read_document(file_name, start, end)`: reads the file's lines, then
`if start is not None: start = 0`, then returns `"\n".join(lines[start:end])`. -/
def read_document (file : List String) (start stop : Option Int) : String :=
  let start := if start.isSome then (some (0 : Int)) else start
  String.intercalate "\n" (pySlice file start stop)

/-- `reference_previous_responses(query)`: delegates to the optional
`complaint_retriever`; with none configured it returns the sentinel string. -/
def reference_previous_responses (complaint_retriever : Option (String → String))
    (query : String) : String :=
  match complaint_retriever with
  | none => "No complaint retriever available"
  | some retriever => retriever query

/-! ## Shared state model (src/src/states/types.py) -/

/-- One conversation turn (`langchain` message as used here): text content and
an optional sender name, immutable once created. -/
structure Message where
  content : String
  name : Option String
deriving DecidableEq, Repr

/-- `ResearchTeamState`: accumulated messages, team member names, and the
current routing decision. (`DocWritingState` adds `current_files`,
`SupervisorState` drops `team_members`; the merge rule is identical, so the
research shape stands for all three.) -/
structure ResearchTeamState where
  messages : List Message
  team_members : List String
  next : String
deriving DecidableEq, Repr

/-- A partial state returned by one graph step: per field, `none` means the
step's returned dict has no entry for it. -/
structure StateDelta where
  messages : Option (List Message)
  team_members : Option (List String)
  next : Option String
deriving DecidableEq, Repr

/-- The executor's merge rule, from the reducer declarations in
`src/src/states/types.py`: `messages` is annotated with `operator.add`, so a
returned message list is concatenated onto the existing one; every other
field is replaced outright when the delta carries it (LangGraph's default
last-value channel) and kept otherwise. -/
def applyDelta (s : ResearchTeamState) (d : StateDelta) : ResearchTeamState :=
  { messages := s.messages ++ d.messages.getD []
    team_members := d.team_members.getD s.team_members
    next := d.next.getD s.next }

/-- A run of graph steps: each step's delta merged in turn. -/
def runSteps (s : ResearchTeamState) (ds : List StateDelta) : ResearchTeamState :=
  ds.foldl applyDelta s

/-! ## Node helpers and chain adapters (src/src/nodes/common.py) -/

/-- `join_graph(response)`: `{"messages": [response["messages"][-1]]}`.
Python `[-1]` on an empty list raises `IndexError`, modelled as `none`. -/
def join_graph (response : List Message) : Option (List Message) :=
  match response.getLast? with
  | some m => some [m]
  | none => none

/-! ## Team supervisor router (src/src/agents/base.py) -/

/-- `create_team_supervisor(llm, system_prompt, members)` as a node: the
chain `prompt | llm.bind_functions(...) | JsonOutputFunctionsParser()` feeds
the conversation to the backend and parses the function-call arguments
`{"next": <label>}` of the schema-constrained `route` call. The backend
(`llm`) is the external oracle choosing the label from the history. The
returned dict carries only the `next` key. -/
def create_team_supervisor (backend : List Message → String)
    (s : ResearchTeamState) : StateDelta :=
  { messages := none
    team_members := none
    next := some (backend s.messages) }

/-! ## Star-topology graphs (src/src/graphs/{research,authoring,supervisor}.py) -/

/-- Destination of a conditional edge: a named node or `END`. -/
inductive Dest where
  | node : String → Dest
  | terminal : Dest
deriving DecidableEq, Repr

/-- A `StateGraph` wiring as assembled by the `create_*_graph` functions:
named nodes, unconditional edges, and the conditional-edge map attached to
`condSource` keyed by the state's `next` value. -/
structure GraphSpec where
  nodes : List String
  edges : List (String × String)
  condSource : String
  condMap : List (String × Dest)
  entry : String
deriving Repr

/-- `create_research_graph`: wiring from src/src/graphs/research.py. -/
def research_graph : GraphSpec :=
  { nodes := ["Search", "LoanRetriever", "supervisor"]
    edges := [("Search", "supervisor"), ("LoanRetriever", "supervisor")]
    condSource := "supervisor"
    condMap := [("Search", Dest.node "Search"),
                ("LoanRetriever", Dest.node "LoanRetriever"),
                ("FINISH", Dest.terminal)]
    entry := "supervisor" }

/-- `create_authoring_graph`: wiring from src/src/graphs/authoring.py. -/
def authoring_graph : GraphSpec :=
  { nodes := ["DocWriter", "NoteTaker", "CopyEditor", "DopenessEditor", "supervisor"]
    edges := [("DocWriter", "supervisor"), ("NoteTaker", "supervisor"),
              ("CopyEditor", "supervisor"), ("DopenessEditor", "supervisor")]
    condSource := "supervisor"
    condMap := [("DocWriter", Dest.node "DocWriter"),
                ("NoteTaker", Dest.node "NoteTaker"),
                ("CopyEditor", Dest.node "CopyEditor"),
                ("DopenessEditor", Dest.node "DopenessEditor"),
                ("FINISH", Dest.terminal)]
    entry := "supervisor" }

/-- `create_supervisor_graph`: wiring from src/src/graphs/supervisor.py. -/
def super_graph : GraphSpec :=
  { nodes := ["Research team", "Response team", "supervisor"]
    edges := [("Research team", "supervisor"), ("Response team", "supervisor")]
    condSource := "supervisor"
    condMap := [("Response team", Dest.node "Response team"),
                ("Research team", Dest.node "Research team"),
                ("FINISH", Dest.terminal)]
    entry := "supervisor" }

/-- Transition out of a worker node: the unconditional edge added with
`add_edge`, looked up by source node. -/
def workerStep (g : GraphSpec) (w : String) : Option String :=
  g.edges.lookup w

/-- Transition out of the supervisor: LangGraph evaluates `lambda x: x["next"]`
and looks the value up in the conditional-edge dict; a value missing from the
dict raises (no default branch exists), modelled as `none`. -/
def supervisorStep (g : GraphSpec) (route : String) : Option Dest :=
  g.condMap.lookup route

/-! ## Helper lemmas -/

/-- A `keyLE`-sorted insert list with distinct line numbers is strictly
sorted. -/
lemma sorted_keyLT_of_nodup {l : List (Nat × String)} (hs : List.Sorted keyLE l)
    (hn : (l.map Prod.fst).Nodup) : List.Sorted keyLT l := by
  have hne : l.Pairwise (fun p q => p.1 ≠ q.1) := List.pairwise_map.mp hn
  exact (List.Pairwise.and hs hne).imp (fun h => Nat.lt_of_le_of_ne h.1 h.2)

/-- Sorting insert entries by line number is order-of-presentation
independent when the line numbers are distinct, as they are for a Python
dictionary's items. -/
lemma sortInserts_eq_of_perm {l1 l2 : List (Nat × String)}
    (hkeys : (l1.map Prod.fst).Nodup) (hperm : l1.Perm l2) :
    sortInserts l1 = sortInserts l2 := by
  have p1 : (sortInserts l1).Perm l1 := List.perm_insertionSort keyLE l1
  have p2 : (sortInserts l2).Perm l2 := List.perm_insertionSort keyLE l2
  have hk2 : (l2.map Prod.fst).Nodup := (List.Perm.nodup_iff (hperm.map Prod.fst)).mp hkeys
  exact List.eq_of_perm_of_sorted (p1.trans (hperm.trans p2.symm))
    (sorted_keyLT_of_nodup (List.sorted_insertionSort keyLE l1)
      ((List.Perm.nodup_iff (p1.map Prod.fst)).mpr hkeys))
    (sorted_keyLT_of_nodup (List.sorted_insertionSort keyLE l2)
      ((List.Perm.nodup_iff (p2.map Prod.fst)).mpr hk2))

/-- Every run of merged steps extends the starting message list on the
right. -/
lemma runSteps_messages_append (ds : List StateDelta) :
    ∀ s : ResearchTeamState, ∃ t, (runSteps s ds).messages = s.messages ++ t := by
  induction ds with
  | nil => exact fun s => ⟨[], (List.append_nil _).symm⟩
  | cons d ds ih =>
    intro s
    obtain ⟨t, ht⟩ := ih (applyDelta s d)
    refine ⟨d.messages.getD [] ++ t, ?_⟩
    show (runSteps (applyDelta s d) ds).messages = _
    rw [ht]
    simp [applyDelta, List.append_assoc]

/-- Association-list lookup misses every key absent from the list. -/
lemma lookup_eq_none_of_not_mem {β : Type} (l : List (String × β)) (r : String)
    (h : r ∉ l.map Prod.fst) : l.lookup r = none := by
  induction l with
  | nil => rfl
  | cons p rest ih =>
    obtain ⟨k, v⟩ := p
    simp only [List.map, List.mem_cons, not_or] at h
    have hb : (r == k) = false := beq_eq_false_iff_ne.mpr h.1
    simp [List.lookup, hb, ih h.2]

/-! ## Claim theorems -/

/-- C1 (counterexample): the spec's worked example is wrong about the code.
`edit_document` on the 1-line file with inserts `{2: "X", 1: "Y"}` does not
produce `["Y", original-line-1, "X"]`: the insert requested for line 2 is
applied to the list already shifted by the line-1 insert, landing between
`"Y"` and the original line. -/
theorem edit_document_example_refutes_spec :
    ¬ (edit_document "f.txt" ["orig\n"] [(2, "X"), (1, "Y")]).2 =
      ["Y\n", "orig\n", "X\n"] := by
  decide

/-- C1 (amended): `edit_document` applies the inserts in ascending
line-number order regardless of the mapping's iteration order (the result is
invariant under permuting the insert entries, whose line numbers are
distinct), each line number being interpreted against the list as already
extended by the earlier inserts; on a 1-line file with inserts
`{2: "X", 1: "Y"}` the resulting lines are `["Y", "X", original-line-1]`. -/
theorem edit_document_ascending (file_name : String) (file : List String)
    (l1 l2 : List (Nat × String)) (hkeys : (l1.map Prod.fst).Nodup)
    (hperm : l1.Perm l2) :
    edit_document file_name file l1 = edit_document file_name file l2 ∧
    edit_document "f.txt" ["orig\n"] [(2, "X"), (1, "Y")] =
      ("Document edited and saved to f.txt", ["Y\n", "X\n", "orig\n"]) := by
  refine ⟨?_, by decide⟩
  unfold edit_document
  rw [sortInserts_eq_of_perm hkeys hperm]

/-- C1 witness: the amended theorem applied to the spec's example, in both
iteration orders of the mapping. -/
theorem edit_document_ascending_witness :
    edit_document "f.txt" ["orig\n"] [(2, "X"), (1, "Y")] =
      edit_document "f.txt" ["orig\n"] [(1, "Y"), (2, "X")] ∧
    edit_document "f.txt" ["orig\n"] [(2, "X"), (1, "Y")] =
      ("Document edited and saved to f.txt", ["Y\n", "X\n", "orig\n"]) :=
  edit_document_ascending "f.txt" ["orig\n"] [(2, "X"), (1, "Y")]
    [(1, "Y"), (2, "X")] (by decide) (by decide)

/-- C2: whenever some insert's line number is out of range at the moment it
is applied (after the earlier ascending inserts have been applied),
`edit_document` returns the out-of-range error string as its result and the
file keeps its previous content. -/
theorem edit_document_out_of_range (file_name : String) (file : List String)
    (inserts : List (Nat × String)) (e : String)
    (h : applyInserts (sortInserts inserts) file = Except.error e) :
    edit_document file_name file inserts = (e, file) := by
  simp [edit_document, h]

/-- C2 witness: requesting line 100 on a 1-line file yields the error result
and the file is unmodified. -/
theorem edit_document_out_of_range_witness :
    applyInserts (sortInserts [(100, "X")]) ["line1\n"] =
      Except.error "Error: Line number 100 is out of range." ∧
    edit_document "doc.txt" ["line1\n"] [(100, "X")] =
      ("Error: Line number 100 is out of range.", ["line1\n"]) :=
  ⟨by rfl,
    edit_document_out_of_range "doc.txt" ["line1\n"] [(100, "X")]
      "Error: Line number 100 is out of range." (by rfl)⟩

/-- C3: `read_document` forces any supplied start index to 0 before slicing,
so the result never excludes a leading range of lines: for every start value
it equals the call with start 0. -/
theorem read_document_start_ignored (file : List String)
    (start stop : Option Int) :
    read_document file start stop = read_document file (some 0) stop := by
  cases start with
  | none => simp [read_document, pySlice, pyIndex]
  | some s => rfl

/-- C4: on a non-empty terminal team transcript, `join_graph` returns a
delta holding exactly one message, the most recent one. -/
theorem join_graph_last (ms : List Message) (h : ms ≠ []) :
    join_graph ms = some [ms.getLast h] := by
  simp [join_graph, List.getLast?_eq_getLast ms h]

/-- C4 witness: projecting a 5-message transcript keeps only the last
message. -/
theorem join_graph_last_witness :
    join_graph [⟨"m1", none⟩, ⟨"m2", none⟩, ⟨"m3", none⟩, ⟨"m4", none⟩,
      ⟨"m5", none⟩] = some [⟨"m5", none⟩] := by
  rw [join_graph_last _ (by decide)]
  rfl

/-- C5: with no retriever configured, `reference_previous_responses` returns
the documented sentinel string for every query (and, being a total function,
never fails). -/
theorem reference_previous_responses_sentinel (query : String) :
    reference_previous_responses none query =
      "No complaint retriever available" := rfl

/-- C6: the merge rule concatenates a step's returned messages onto the
existing list and replaces the other fields; consequently over any sequence
of steps the message list's length never decreases and the existing entries
stay in place as a prefix of the result. -/
theorem state_merge_accumulates (s : ResearchTeamState) (d : StateDelta)
    (ds : List StateDelta) :
    (applyDelta s d).messages = s.messages ++ d.messages.getD [] ∧
    (applyDelta s d).team_members = d.team_members.getD s.team_members ∧
    (applyDelta s d).next = d.next.getD s.next ∧
    s.messages.length ≤ (runSteps s ds).messages.length ∧
    (runSteps s ds).messages.take s.messages.length = s.messages := by
  obtain ⟨t, ht⟩ := runSteps_messages_append ds s
  refine ⟨rfl, rfl, rfl, ?_, ?_⟩
  · rw [ht]; simp
  · rw [ht]; exact List.take_left s.messages t

/-- C7: in all three graphs (research team, authoring team, top level) every
unconditional edge leads to that graph's supervisor, every non-supervisor
node has its outgoing transition wired to the supervisor, and the only
conditional-edge source is the supervisor: no worker-to-worker edge
exists. -/
theorem workers_return_to_supervisor :
    (∀ w ∈ research_graph.nodes, w ≠ "supervisor" →
      workerStep research_graph w = some "supervisor") ∧
    (∀ w ∈ authoring_graph.nodes, w ≠ "supervisor" →
      workerStep authoring_graph w = some "supervisor") ∧
    (∀ w ∈ super_graph.nodes, w ≠ "supervisor" →
      workerStep super_graph w = some "supervisor") ∧
    (∀ e ∈ research_graph.edges, e.2 = "supervisor") ∧
    (∀ e ∈ authoring_graph.edges, e.2 = "supervisor") ∧
    (∀ e ∈ super_graph.edges, e.2 = "supervisor") ∧
    research_graph.condSource = "supervisor" ∧
    authoring_graph.condSource = "supervisor" ∧
    super_graph.condSource = "supervisor" := by
  decide

/-- C7 witness: one worker of each graph steps back to its supervisor. -/
theorem workers_return_to_supervisor_witness :
    workerStep research_graph "Search" = some "supervisor" ∧
    workerStep authoring_graph "DocWriter" = some "supervisor" ∧
    workerStep super_graph "Research team" = some "supervisor" :=
  ⟨workers_return_to_supervisor.1 "Search" (by decide) (by decide),
    workers_return_to_supervisor.2.1 "DocWriter" (by decide) (by decide),
    workers_return_to_supervisor.2.2.1 "Research team" (by decide) (by decide)⟩

/-- C8: a routing value outside the declared member set plus `FINISH` finds
no entry in the conditional-edge map of any of the three graphs, so the
transition lookup fails (LangGraph raises) instead of routing to a default;
every in-set label maps to exactly the matching node or to termination. -/
theorem invalid_route_is_error :
    (∀ r : String, r ∉ ["Search", "LoanRetriever", "FINISH"] →
      supervisorStep research_graph r = none) ∧
    (∀ r : String,
      r ∉ ["DocWriter", "NoteTaker", "CopyEditor", "DopenessEditor", "FINISH"] →
      supervisorStep authoring_graph r = none) ∧
    (∀ r : String, r ∉ ["Response team", "Research team", "FINISH"] →
      supervisorStep super_graph r = none) ∧
    (∀ m ∈ ["Search", "LoanRetriever"],
      supervisorStep research_graph m = some (Dest.node m)) ∧
    supervisorStep research_graph "FINISH" = some Dest.terminal ∧
    supervisorStep authoring_graph "FINISH" = some Dest.terminal ∧
    supervisorStep super_graph "FINISH" = some Dest.terminal := by
  refine ⟨?_, ?_, ?_, by decide, by decide, by decide, by decide⟩
  · intro r h
    exact lookup_eq_none_of_not_mem research_graph.condMap r h
  · intro r h
    exact lookup_eq_none_of_not_mem authoring_graph.condMap r h
  · intro r h
    exact lookup_eq_none_of_not_mem super_graph.condMap r h

/-- C8 witness: the out-of-set label "Bogus" yields no transition in any
graph. -/
theorem invalid_route_is_error_witness :
    supervisorStep research_graph "Bogus" = none ∧
    supervisorStep authoring_graph "Bogus" = none ∧
    supervisorStep super_graph "Bogus" = none :=
  ⟨invalid_route_is_error.1 "Bogus" (by decide),
    invalid_route_is_error.2.1 "Bogus" (by decide),
    invalid_route_is_error.2.2.1 "Bogus" (by decide)⟩

/-- C9: a supervisor invocation returns a delta carrying only the routing
decision: the returned dict has no messages and no team-members entry, its
`next` is the backend's chosen label, and merging it leaves the message list
and the member list untouched. -/
theorem supervisor_sets_only_next (backend : List Message → String)
    (s : ResearchTeamState) :
    (create_team_supervisor backend s).messages = none ∧
    (create_team_supervisor backend s).team_members = none ∧
    (create_team_supervisor backend s).next = some (backend s.messages) ∧
    (applyDelta s (create_team_supervisor backend s)).messages = s.messages ∧
    (applyDelta s (create_team_supervisor backend s)).team_members
      = s.team_members ∧
    (applyDelta s (create_team_supervisor backend s)).next
      = backend s.messages := by
  refine ⟨rfl, rfl, rfl, ?_, rfl, rfl⟩
  simp [applyDelta, create_team_supervisor]

/-- C10: `edit_document` is atomic: on any out-of-range insert the file
content is left entirely unchanged even when earlier in-range inserts were
already applied to the in-memory line list, and on an empty inserts mapping
it returns the success message with the file content unchanged. -/
theorem edit_document_atomic :
    (∀ (file_name : String) (file : List String)
      (inserts : List (Nat × String)) (e : String),
      applyInserts (sortInserts inserts) file = Except.error e →
      (edit_document file_name file inserts).2 = file) ∧
    (∀ (file_name : String) (file : List String),
      edit_document file_name file [] =
        ("Document edited and saved to " ++ file_name, file)) := by
  constructor
  · intro file_name file inserts e h
    simp [edit_document, h]
  · intro file_name file
    rfl

/-- C10 witness: inserts `{1: "P", 100: "Q"}` on a 1-line file fail at line
100 after the line-1 insert succeeded in memory, and the file is unchanged;
an empty mapping succeeds and changes nothing. -/
theorem edit_document_atomic_witness :
    applyInserts (sortInserts [(1, "P"), (100, "Q")]) ["a\n"] =
      Except.error "Error: Line number 100 is out of range." ∧
    (edit_document "w.txt" ["a\n"] [(1, "P"), (100, "Q")]).2 = ["a\n"] ∧
    edit_document "x.txt" ["w\n"] [] =
      ("Document edited and saved to " ++ "x.txt", ["w\n"]) :=
  ⟨by rfl,
    edit_document_atomic.1 "w.txt" ["a\n"] [(1, "P"), (100, "Q")]
      "Error: Line number 100 is out of range." (by rfl),
    edit_document_atomic.2 "x.txt" ["w\n"]⟩

end LangGraphMA
